import Mathlib

/-
  Verification of the signal-detection and behavioral-trend engine:
  shallow embedding of
    modules/phishing/detector.py   (PhishingDetector)
    modules/emotion/analyzer.py    (EmotionAnalyzer)
    modules/emotion/trend_monitor.py (EmotionTrendMonitor)
    modules/emotion/alert_manager.py (AlertManager)

  Modelling conventions:
  - Python floats are modelled as exact rationals (ℚ).  Every concrete
    comparison exercised by the theorems below involves values on which
    binary floating point and exact rational arithmetic agree (the scores
    are small decimal fractions and the comparisons are far from any
    representation boundary, e.g. `5 >= 7*0.7` holds both for the float
    `4.8999999999999995` and for the rational `49/10`).
  - Python strings are Lean `String`s; `str.lower()` is modelled as a
    per-character `Char.toLower`, which agrees with Python on the ASCII
    and Korean text appearing in the lexicons and inputs (Korean has no
    case, ASCII is mapped identically, and the length is preserved).
  - Mutable dictionaries keyed by strings are modelled as association
    lists preserving Python's insertion order.
-/

namespace Bokdori

/-! ### Generic helpers -/

/-- First-occurrence-preserving duplicate removal.  This is the loop
`for k in l: if k not in combined: combined.append(k)` used in
`PhishingDetector.detect` (detector.py lines 330-333), and also models
the `list(set(...))` de-duplication in `EmotionAnalyzer.analyze_text`
(analyzer.py line 187) up to the unspecified ordering of a Python set. -/
def dedupKeepFirst {α : Type} [DecidableEq α] (l : List α) : List α :=
  l.foldl (fun acc k => if k ∈ acc then acc else acc ++ [k]) []

theorem dedupKeepFirst_aux_nodup {α : Type} [DecidableEq α] :
    ∀ (l acc : List α), acc.Nodup →
      (l.foldl (fun acc k => if k ∈ acc then acc else acc ++ [k]) acc).Nodup := by
  intro l
  induction l with
  | nil => intro acc h; simpa using h
  | cons x xs ih =>
    intro acc h
    simp only [List.foldl_cons]
    by_cases hx : x ∈ acc
    · simp only [if_pos hx]; exact ih acc h
    · simp only [if_neg hx]
      refine ih _ ?_
      simp [List.nodup_append, h, hx]

theorem dedupKeepFirst_nodup {α : Type} [DecidableEq α] (l : List α) :
    (dedupKeepFirst l).Nodup :=
  dedupKeepFirst_aux_nodup l [] List.nodup_nil

theorem dedupKeepFirst_aux_subset {α : Type} [DecidableEq α] :
    ∀ (l acc : List α) (a : α),
      a ∈ l.foldl (fun acc k => if k ∈ acc then acc else acc ++ [k]) acc →
      a ∈ acc ∨ a ∈ l := by
  intro l
  induction l with
  | nil => intro acc a h; simp only [List.foldl_nil] at h; exact Or.inl h
  | cons x xs ih =>
    intro acc a h
    simp only [List.foldl_cons] at h
    by_cases hx : x ∈ acc
    · rw [if_pos hx] at h
      rcases ih acc a h with h' | h'
      · exact Or.inl h'
      · exact Or.inr (List.mem_cons_of_mem _ h')
    · rw [if_neg hx] at h
      rcases ih (acc ++ [x]) a h with h' | h'
      · rcases List.mem_append.mp h' with h'' | h''
        · exact Or.inl h''
        · simp only [List.mem_singleton] at h''
          exact Or.inr (h'' ▸ List.mem_cons_self x xs)
      · exact Or.inr (List.mem_cons_of_mem _ h')

theorem dedupKeepFirst_subset {α : Type} [DecidableEq α] (l : List α) :
    ∀ a ∈ dedupKeepFirst l, a ∈ l := by
  intro a h
  rcases dedupKeepFirst_aux_subset l [] a h with h' | h'
  · simp at h'
  · exact h'

/-- Association-list lookup, modelling `dict.get`/`dict[...]` access on a
dictionary built by insertion. -/
def lookupA {α β : Type} [DecidableEq α] : List (α × β) → α → Option β
  | [], _ => none
  | p :: ps, a => if p.1 = a then some p.2 else lookupA ps a

theorem lookupA_map_self {α β : Type} [DecidableEq α] (f : α → β) :
    ∀ (l : List α) (a : α), a ∈ l →
      lookupA (l.map fun x => (x, f x)) a = some (f a) := by
  intro l
  induction l with
  | nil => intro a h; simp at h
  | cons x xs ih =>
    intro a h
    simp only [List.map_cons, lookupA]
    by_cases hx : x = a
    · rw [if_pos hx, hx]
    · rw [if_neg hx]
      rcases List.mem_cons.mp h with h' | h'
      · exact absurd h'.symm hx
      · exact ih a h'

/-- Lowercased character list of a string (`text.lower()`). -/
def lowerStr (s : String) : List Char := s.toList.map Char.toLower

/-! ### Phishing detector (modules/phishing/detector.py) -/

/-- The keyword tiers of `PhishingDetector` (`self.patterns`). -/
structure PhishingPatterns where
  highRisk : List String
  mediumRisk : List String
  lowRisk : List String

/-- `_load_patterns`' built-in default tiers (detector.py lines 49-53). -/
def defaultPhishingPatterns : PhishingPatterns :=
  { highRisk := ["계좌번호", "보안코드", "인증번호", "비밀번호", "OTP"]
    mediumRisk := ["송금", "이체", "금융사고", "검찰", "경찰", "금감원"]
    lowRisk := ["급한", "긴급", "빨리", "지금 당장"] }

/-- Result shape shared by `detect_with_patterns`, `detect_with_llm` and
`_parse_llm_result` (a four-key dict). -/
structure PatternResult where
  risk_level : String
  score : ℚ
  keywords : List String
  explanation : String
deriving DecidableEq

/-- Full verdict returned by `detect` (six-key dict). -/
structure Verdict where
  is_phishing : Bool
  risk_level : String
  score : ℚ
  keywords : List String
  explanation : String
  method : String
deriving DecidableEq

/-- Risk level thresholds applied to the normalized pattern score
(detector.py lines 128-135). -/
def patternRiskLevel (s : ℚ) : String :=
  if 7/10 ≤ s then "high"
  else if 2/5 ≤ s then "medium"
  else if 0 < s then "low"
  else "safe"

/-- Explanation chosen per risk level (detector.py lines 141-148). -/
def patternExplanation (level : String) : String :=
  if level = "high" then "다수의 고위험 보이스피싱 징후가 감지되었습니다. 주의하세요!"
  else if level = "medium" then "일부 보이스피싱 관련 용어가 감지되었습니다. 의심스러운 부분이 있습니다."
  else if level = "low" then "약간의 의심스러운 표현이 포함되어 있습니다. 주의가 필요할 수 있습니다."
  else "보이스피싱 징후가 감지되지 않았습니다."

/-- `keyword.lower() in normalized_text` (substring containment). -/
def keywordHit (normalized : List Char) (k : String) : Bool :=
  decide (lowerStr k <:+: normalized)

/-- `detect_with_patterns` (detector.py lines 75-155).  The input is
already a string, so the `isinstance`/`str()` coercion path (lines 86-92)
is not reachable in this model. -/
def detect_with_patterns (pats : PhishingPatterns) (text : String) : PatternResult :=
  if text.length < 5 then
    { risk_level := "unknown", score := 0, keywords := [],
      explanation := "텍스트가 너무 짧습니다." }
  else
    let nt := lowerStr text
    let dh := pats.highRisk.filter (keywordHit nt)
    let dm := pats.mediumRisk.filter (keywordHit nt)
    let dl := pats.lowRisk.filter (keywordHit nt)
    let score : ℚ := dh.length * (1/2) + dm.length * (3/10) + dl.length * (1/10)
    let ns := min score 1
    { risk_level := patternRiskLevel ns, score := ns,
      keywords := dh ++ dm ++ dl,
      explanation := patternExplanation (patternRiskLevel ns) }

/-- Character class `[:\s]` used in the regexes of `_parse_llm_result`. -/
def isSpaceColonChar (c : Char) : Bool := c = ':' || c.isWhitespace

/-- Character class `[0-9.]`. -/
def isDigitDotChar (c : Char) : Bool := c.isDigit || c = '.'

/-- Value of a run of decimal digit characters. -/
def digitsVal (ds : List Char) : ℕ :=
  ds.foldl (fun a c => 10 * a + (c.toNat - 48)) 0

/-- Python `float(...)` applied to a nonempty string of digits and dots
(the only strings the probability regex can capture): at most one dot is
accepted, and at least one digit must be present. -/
def parseProbFloat (cs : List Char) : Option ℚ :=
  if 1 < cs.count '.' then none
  else
    match cs.takeWhile Char.isDigit, cs.drop (cs.takeWhile Char.isDigit).length with
    | ip, [] => if ip.isEmpty then none else some (digitsVal ip)
    | ip, c :: fp =>
      if c = '.' then
        if ip.isEmpty ∧ fp.isEmpty then none
        else some ((digitsVal ip : ℚ) + (digitsVal fp : ℚ) / (10 : ℚ) ^ fp.length)
      -- unreachable when cs consists of digits and dots only
      else none

/-- After a literal `확률`, the regex `[:\s]*([0-9.]+)` takes the maximal
separator run and then the maximal digit-dot run (empty ⇒ no match). -/
def probTailNumber (cs : List Char) : Option (List Char) :=
  let num := (cs.dropWhile isSpaceColonChar).takeWhile isDigitDotChar
  if num.isEmpty then none else some num

/-- `re.search` for `확률[:\s]*([0-9.]+)` (detector.py line 231): the
leftmost occurrence of `확률` that is followed by a number wins. -/
def searchProbNumber : List Char → Option (List Char)
  | [] => none
  | c :: rest =>
    if decide ("확률".toList <+: (c :: rest)) then
      match probTailNumber ((c :: rest).drop 2) with
      | some n => some n
      | none => searchProbNumber rest
    else searchProbNumber rest

/-- The alternation `(안전|주의|경고|위험)` and its mapping to coarse levels
(detector.py lines 241-249), tried in regex alternation order. -/
def levelAlternative (cs : List Char) : Option String :=
  if decide ("안전".toList <+: cs) then some "safe"
  else if decide ("주의".toList <+: cs) then some "low"
  else if decide ("경고".toList <+: cs) then some "medium"
  else if decide ("위험".toList <+: cs) then some "high"
  else none

/-- Greedy `[^:]*[:\s]*` followed by the level alternation: `k` counts the
characters consumed by `[^:]*`, tried from the maximal run length downward
(greedy backtracking).  The alternatives start with neither a colon nor
whitespace, so the `[:\s]*` run can be taken maximally. -/
def levelAfterAux (cs : List Char) : Nat → Option String
  | 0 => levelAlternative (cs.dropWhile isSpaceColonChar)
  | k + 1 =>
    match levelAlternative ((cs.drop (k + 1)).dropWhile isSpaceColonChar) with
    | some l => some l
    | none => levelAfterAux cs k

/-- `re.search` for `위험[^:]*[:\s]*(안전|주의|경고|위험)` (detector.py
line 239): leftmost starting occurrence of `위험`, then greedy `[^:]*`. -/
def searchLevel : List Char → Option String
  | [] => none
  | c :: rest =>
    if decide ("위험".toList <+: (c :: rest)) then
      let tail := (c :: rest).drop 2
      match levelAfterAux tail (tail.takeWhile (fun ch => ch ≠ ':')).length with
      | some l => some l
      | none => searchLevel rest
    else searchLevel rest

/-- Characters after the first occurrence of `needle` (the scan of
`re.search` for a pattern starting with that literal). -/
def afterFirst (needle : List Char) : List Char → Option (List Char)
  | [] => none
  | c :: rest =>
    if decide (needle <+: (c :: rest)) then some ((c :: rest).drop needle.length)
    else afterFirst needle rest

/-- Python `str.strip()`. -/
def trimWS (cs : List Char) : List Char :=
  ((cs.dropWhile Char.isWhitespace).reverse.dropWhile Char.isWhitespace).reverse

/-- `[k.strip() for k in s.split(',') if k.strip()]` (detector.py line 255). -/
def splitCommaStrip (cs : List Char) : List String :=
  ((cs.splitOn ',').map trimWS).filter (fun p => ¬p.isEmpty) |>.map List.asString

/-- `re.search` for `키워드[^:]*[:\s]*(.*?)(?:\n|$)` (detector.py line 252).
The greedy `[^:]*` runs to the first colon when one exists; without a
colon it swallows the rest of the string and the lazy group is empty. -/
def extractKeywords (cs : List Char) : List String :=
  match afterFirst "키워드".toList cs with
  | none => []
  | some rest =>
    if rest.any (fun c => c = ':') then
      let afterColon := (rest.dropWhile (fun c => c ≠ ':')).dropWhile isSpaceColonChar
      splitCommaStrip (afterColon.takeWhile (fun c => c ≠ '\n'))
    else []

/-- The lazy group of `(.*?)(?:\n|대응|\Z)` under `re.DOTALL`: everything up
to the first newline, `대응`, or end of text. -/
def takeUntilStop : List Char → List Char
  | [] => []
  | c :: rest =>
    if c = '\n' then []
    else if decide ("대응".toList <+: (c :: rest)) then []
    else c :: takeUntilStop rest

/-- `re.search` for `설명[^:]*[:\s]*(.*?)(?:\n|대응|\Z)` with `re.DOTALL`
(detector.py line 258), result stripped. -/
def extractExplanation (cs : List Char) : Option String :=
  match afterFirst "설명".toList cs with
  | none => none
  | some rest =>
    if rest.any (fun c => c = ':') then
      let afterColon := (rest.dropWhile (fun c => c ≠ ':')).dropWhile isSpaceColonChar
      some (trimWS (takeUntilStop afterColon)).asString
    else
      -- greedy [^:]* reaches the end of the text, the lazy group is empty
      some ""

/-- The fixed parse-failure explanation (detector.py lines 218, 227). -/
def parseFailExplanation : String := "분석 결과를 해석할 수 없습니다."

/-- `_parse_llm_result` (detector.py lines 197-271): each field that fails
to parse falls back to its default.  The input is already a string, so the
coercion path (lines 208-219) and the outer `except` (lines 264-271) are
not reachable in this model. -/
def parse_llm_result (result : String) : PatternResult :=
  let cs := result.toList
  { risk_level :=
      match searchLevel cs with
      | none => "unknown"
      | some l => l
    score :=
      match searchProbNumber cs with
      | none => 0
      | some num =>
        match parseProbFloat num with
        | none => 0
        | some q => q
    keywords := extractKeywords cs
    explanation :=
      match extractExplanation cs with
      | none => parseFailExplanation
      | some e => e }

/-- `detect_with_llm` (detector.py lines 157-195).  The external chain call
is modelled as an `Except` argument: `Except.error` is the chain raising
(or timing out), `Except.ok r` is a free-text response `r`.  On error the
code falls back to `detect_with_patterns` (lines 191-195). -/
def detect_with_llm (pats : PhishingPatterns) (text : String)
    (llm : Except Unit String) : PatternResult :=
  if text.length < 10 then
    { risk_level := "unknown", score := 0, keywords := [],
      explanation := "텍스트가 너무 짧습니다." }
  else
    match llm with
    | Except.error _ => detect_with_patterns pats text
    | Except.ok r => parse_llm_result r

/-- Combined risk level and `is_phishing` decision against the configured
threshold τ (detector.py lines 336-347). -/
def combinedDecision (τ s : ℚ) : String × Bool :=
  if τ ≤ s then ("high", true)
  else if τ * (7/10) ≤ s then ("medium", true)
  else if τ * (3/10) ≤ s then ("low", false)
  else ("safe", false)

/-- `detect` (detector.py lines 273-367): pattern sub-scorer, the `< 0.2`
LLM-skip gate, max-fusion of the scores, first-occurrence keyword union,
threshold decision and explanation preference. -/
def detect (pats : PhishingPatterns) (τ : ℚ) (text : String)
    (llm : Except Unit String) : Verdict :=
  let pr := detect_with_patterns pats text
  if pr.score < 1/5 then
    { is_phishing := false, risk_level := pr.risk_level, score := pr.score,
      keywords := pr.keywords, explanation := pr.explanation, method := "pattern" }
  else
    let lr := detect_with_llm pats text llm
    let combinedScore := max pr.score lr.score
    let d := combinedDecision τ combinedScore
    { is_phishing := d.2, risk_level := d.1, score := combinedScore,
      keywords := dedupKeepFirst (pr.keywords ++ lr.keywords),
      explanation :=
        if lr.explanation ≠ "" ∧ lr.explanation ≠ parseFailExplanation then
          lr.explanation
        else pr.explanation,
      method := "combined" }

/-! ### Emotion trend monitor (modules/emotion/trend_monitor.py) -/

/-- A persisted per-utterance emotion record, as read back from the
day-partitioned logs.  `timestamp` is an ISO timestamp string,
`category` is the record's `emotion_category`, `keywords` its keyword
list.  Records without a parsable timestamp are skipped by the source
(trend_monitor.py lines 80-94); the model takes the well-formed records
the claims are about. -/
structure EmoLog where
  timestamp : String
  category : String
  keywords : List String
deriving DecidableEq

/-- Calendar date of an ISO timestamp
(`datetime.fromisoformat(..).strftime(%Y-%m-%d)` keeps the first ten
characters of a well-formed ISO string). -/
def dateOf (ts : String) : String := (ts.toList.take 10).asString

/-- One day's bucket of `calculate_daily_emotions`.  The `positive_ratio`,
`negative_ratio`, `neutral_ratio` keys of the source dict are the fields
`posRate`, `negRate`, `neuRate` here. -/
structure DayStats where
  posRate : ℚ
  negRate : ℚ
  neuRate : ℚ
  dominant_emotion : String
deriving DecidableEq

/-- Records falling on date `d`. -/
def logsOn (logs : List EmoLog) (d : String) : List EmoLog :=
  logs.filter (fun l => dateOf l.timestamp = d)

/-- Count of records of date `d` with the given `emotion_category`. -/
def catCount (logs : List EmoLog) (d cat : String) : ℕ :=
  ((logsOn logs d).filter (fun l => l.category = cat)).length

/-- `max(["positive", "negative", "neutral"], key=...)` over the three
counts: Python's `max` keeps the first element among ties
(trend_monitor.py lines 105-106). -/
def dayDominant (p n u : ℕ) : String :=
  if p < n then (if n < u then "neutral" else "negative")
  else (if p < u then "neutral" else "positive")

/-- The `total` counter a day's bucket ends up with (trend_monitor.py
lines 90-92).  The *inner* dicts of `daily_stats` are plain dicts with
exactly the keys `positive`, `negative`, `neutral`, `total` (only the
outer dict is a `defaultdict`), and the accumulation is

    daily_stats[date_str][category] += 1
    daily_stats[date_str]["total"]  += 1

so: a record with one of the three coarse categories bumps its counter and
`total` once each; a record whose category is the literal `"total"` bumps
`total` twice; a record with any other category (e.g. the `"unknown"` the
engine persists for short inputs) raises `KeyError` on the first line and
the per-record `except` (lines 93-94) skips it before `total` is ever
touched. -/
def dayTotal (logs : List EmoLog) (d : String) : ℕ :=
  catCount logs d "positive" + catCount logs d "negative" + catCount logs d "neutral" +
    2 * catCount logs d "total"

/-- The statistics `calculate_daily_emotions` computes for a date `d` with
`dayTotal > 0` (trend_monitor.py lines 96-107): ratios of the three coarse
counters over the bucket's `total` counter. -/
def dayStatsOf (logs : List EmoLog) (d : String) : DayStats :=
  let total : ℚ := dayTotal logs d
  let p := catCount logs d "positive"
  let n := catCount logs d "negative"
  let u := catCount logs d "neutral"
  { posRate := p / total, negRate := n / total, neuRate := u / total,
    dominant_emotion := dayDominant p n u }

/-- The distinct dates of the record set, in first-appearance order: the
outer `defaultdict` creates a date's bucket when `daily_stats[date_str]`
is first evaluated, which happens for every record with a parsable
timestamp — even one whose category increment then raises. -/
def datesOf (logs : List EmoLog) : List String :=
  dedupKeepFirst (logs.map fun l => dateOf l.timestamp)

/-- The dates that survive the `total > 0` filter of trend_monitor.py
lines 98-107: a date all of whose records were skipped by the `except`
keeps `total = 0` and is dropped. -/
def countedDates (logs : List EmoLog) : List String :=
  (datesOf logs).filter fun d => 0 < dayTotal logs d

/-- `calculate_daily_emotions` (trend_monitor.py lines 64-109): one bucket
per distinct date with a positive `total` counter, in bucket-creation
order. -/
def calculate_daily_emotions (logs : List EmoLog) : List (String × DayStats) :=
  (countedDates logs).map fun d => (d, dayStatsOf logs d)

/-- `sorted(daily_stats.keys())[-days:]` (trend_monitor.py line 126):
dates sorted lexicographically (= chronologically for ISO dates), keeping
the last `days`. -/
def recentDates (logs : List EmoLog) (days : ℕ) : List String :=
  let ds := (calculate_daily_emotions logs).map Prod.fst
  (List.insertionSort (fun a b : String => a ≤ b) ds).drop (ds.length - days)

/-- The `high_negative_days` loop of `detect_depression_risk`
(trend_monitor.py lines 133-137). -/
def highNegativeDays (logs : List EmoLog) (days : ℕ) (threshold : ℚ) : ℕ :=
  let daily := calculate_daily_emotions logs
  ((recentDates logs days).filter fun d =>
    match lookupA daily d with
    | some s => decide (threshold ≤ s.negRate)
    | none => false).length

/-- `detect_depression_risk` (trend_monitor.py lines 111-140): no risk
without `days` dated buckets; otherwise risk iff the count of qualifying
days reaches `days * 0.7`.  (For `days = 7` the float product is
`4.8999999999999995` and the rational is `49/10`; an integer count
compares identically against both.) -/
def detect_depression_risk (logs : List EmoLog) (days : ℕ) (threshold : ℚ) : Bool :=
  if (recentDates logs days).length < days then false
  else decide ((days : ℚ) * (7/10) ≤ (highNegativeDays logs days threshold : ℚ))

/-- One `keyword_counts[keyword] += 1` step on an insertion-ordered dict
(trend_monitor.py lines 154-157). -/
def bumpKeyword (acc : List (String × ℕ)) (k : String) : List (String × ℕ) :=
  if acc.any (fun p => p.1 = k) then
    acc.map fun p => if p.1 = k then (p.1, p.2 + 1) else p
  else acc ++ [(k, 1)]

/-- Keyword frequencies over all loaded records. -/
def keywordCounts (logs : List EmoLog) : List (String × ℕ) :=
  logs.foldl (fun acc l => l.keywords.foldl bumpKeyword acc) []

/-- `sorted(keyword_counts.items(), key=count, reverse=True)[:10]`
(trend_monitor.py line 160): a stable descending sort keeps first-seen
order among equal counts, as Python's `sorted` does. -/
def topKeywords (logs : List EmoLog) : List (String × ℕ) :=
  (List.insertionSort (fun a b : String × ℕ => b.2 ≤ a.2) (keywordCounts logs)).take 10

/-- The report dict built by `generate_weekly_report` (trend_monitor.py
lines 168-184), with the `overall_stats` ratio keys as `overallPos` etc. -/
structure WeeklyReport where
  period_start : String
  period_end : String
  generated_at : String
  overallPos : ℚ
  overallNeg : ℚ
  overallNeu : ℚ
  dominant_emotion : String
  daily_stats : List (String × DayStats)
  top_keywords : List (String × ℕ)
  depression_risk : Bool

/-- The local namespace of the lambda `lambda x: locals()[f"x_ratio"]`
(trend_monitor.py lines 178-179, with `x` interpolated): a Python
function's `locals()` holds exactly its own local names, here the single
parameter `x`.  The surrounding method's `positive_ratio` etc. are not
free variables of the lambda and therefore absent. -/
def lambdaLocals (x : String) : List (String × String) := [("x", x)]

/-- The key function of the `max(...)` call: look up `f"x_ratio"` in the
lambda's `locals()`.  The looked-up name ends in `_ratio` and so can never
equal the only bound name `x`; the lookup raises `KeyError`. -/
def localsKey (x : String) : Except String ℚ :=
  match lookupA (lambdaLocals x) (x ++ "_ratio") with
  | some _ => Except.error "unreachable: the lambda binds only the string x"
  | none => Except.error ("KeyError: " ++ x ++ "_ratio")

/-- Python `max(l, key=k)`: evaluates `k` on each element left to right
(propagating the first exception), keeping the first element among ties. -/
def maxByKey (key : String → Except String ℚ) : List String → Except String String
  | [] => Except.error "ValueError: max() arg is an empty sequence"
  | x :: xs => do
    let kx ← key x
    let r ← xs.foldlM (fun (best : String × ℚ) y => do
      let ky ← key y
      pure (if best.2 < ky then (y, ky) else best)) (x, kx)
    pure r.1

/-- `generate_weekly_report` (trend_monitor.py lines 142-186).  The three
`datetime.now()`-derived strings are parameters (`periodStart`,
`periodEnd`, `generatedAt`).  The dict literal evaluates the overall
ratios first and then the `dominant_emotion` entry, whose `max` raises;
`daily_stats`, `top_keywords` and `depression_risk` appear later in the
literal and are only reached if it does not. -/
def generate_weekly_report (logs : List EmoLog)
    (periodStart periodEnd generatedAt : String) : Except String WeeklyReport :=
  let daily := calculate_daily_emotions logs
  let pr : ℚ :=
    if daily.isEmpty then 0 else ((daily.map fun p => p.2.posRate).sum) / daily.length
  let nr : ℚ :=
    if daily.isEmpty then 0 else ((daily.map fun p => p.2.negRate).sum) / daily.length
  let ur : ℚ :=
    if daily.isEmpty then 0 else ((daily.map fun p => p.2.neuRate).sum) / daily.length
  match maxByKey localsKey ["positive", "negative", "neutral"] with
  | Except.error e => Except.error e
  | Except.ok dom =>
    Except.ok
      { period_start := periodStart, period_end := periodEnd,
        generated_at := generatedAt,
        overallPos := pr, overallNeg := nr, overallNeu := ur,
        dominant_emotion := dom,
        daily_stats := daily,
        top_keywords := topKeywords logs,
        depression_risk := detect_depression_risk logs 7 (3/5) }

/-! ### Alert manager (modules/emotion/alert_manager.py) -/

/-- A persisted alert.  Timestamps are modelled as seconds on a linear
clock; ISO timestamp strings compare lexicographically exactly as these
numbers compare, and the date of the day file an alert is stored in
(`_save_alert`, alert_manager.py lines 189-197) is `timestamp / 86400`.
The type- and claim-relevant fields are kept; the `details` payload is a
constant per alert type and plays no role in any claim.  -/
structure Alert where
  type : String
  timestamp : ℕ
  severity : String
  message : String
deriving DecidableEq

/-- Calendar day of a second-resolution timestamp. -/
def alertDate (t : ℕ) : ℕ := t / 86400

/-- `_get_last_alert` (alert_manager.py lines 134-177): collect the day
files dated from `now - 7 days` through `now` (the loop visits those
calendar dates), filter by `type`, sort by timestamp descending (a stable
sort of ISO strings) and return the first, i.e. the latest. -/
def get_last_alert (alerts : List Alert) (now : ℕ) (ty : String) : Option Alert :=
  let inWindow := alerts.filter fun a =>
    a.type = ty ∧ alertDate (now - 7 * 86400) ≤ alertDate a.timestamp ∧
      alertDate a.timestamp ≤ alertDate now
  (List.insertionSort (fun a b : Alert => b.timestamp ≤ a.timestamp) inWindow).head?

/-- Message of the depression alert (alert_manager.py line 56). -/
def depressionAlertMessage : String :=
  "지난 7일 동안 지속적인 부정적 감정이 감지되었습니다. 사용자의 상태를 확인해 주세요."

/-- `check_depression_alert` (alert_manager.py lines 29-67) over explicit
state: the persisted emotion records, the persisted alerts and the current
time.  Returns the alert raised (if any) and the new persisted alert list
(`_save_alert` appends).  `(datetime.now() - ts).days < 3` is
`(now - ts) / 86400 < 3`; for a persisted timestamp in the future Python's
`.days` is negative and the truncated ℕ subtraction is zero, so both
suppress. -/
def check_depression_alert (emoLogs : List EmoLog) (alerts : List Alert)
    (now : ℕ) : Option Alert × List Alert :=
  if ¬detect_depression_risk emoLogs 7 (3/5) then (none, alerts)
  else
    match get_last_alert alerts now "depression" with
    | some last =>
      if (now - last.timestamp) / 86400 < 3 then (none, alerts)
      else
        let a : Alert := ⟨"depression", now, "warning", depressionAlertMessage⟩
        (some a, alerts ++ [a])
    | none =>
      let a : Alert := ⟨"depression", now, "warning", depressionAlertMessage⟩
      (some a, alerts ++ [a])

/-! ### Emotion analyzer (modules/emotion/analyzer.py) -/

/-- The configurable patterns of `EmotionAnalyzer` (`self.patterns`): the
`emotions` mapping and the modifier/negation word lists. -/
structure EmotionLexicon where
  emotions : List (String × List String)
  intensityHigh : List String
  intensityLow : List String
  negationWords : List String

/-- `_load_emotion_patterns`' built-in defaults (analyzer.py lines 47-61). -/
def defaultEmotionLexicon : EmotionLexicon :=
  { emotions :=
      [("기쁨", ["좋아", "기쁘", "행복", "웃", "신나", "즐겁", "재밌"]),
       ("슬픔", ["슬퍼", "우울", "눈물", "울", "속상", "마음이 아프", "고통스럽"]),
       ("분노", ["화나", "짜증", "열받", "분노", "화가 나", "짜증나", "미치겠"]),
       ("불안", ["걱정", "불안", "초조", "두렵", "무섭", "떨려", "긴장"]),
       ("우울", ["우울", "의미 없", "공허", "허무", "살기 싫", "절망", "희망이 없"]),
       ("평온", ["평온", "고요", "침착", "차분", "편안", "안정"])]
    intensityHigh := ["매우", "정말", "너무", "엄청", "굉장히"]
    intensityLow := ["조금", "약간", "살짝", "다소"]
    negationWords := ["아니", "않", "없", "말", "못"] }

/-- The hardcoded coarse classification lists (analyzer.py lines 29-33);
the classification tests membership in `positive`, then `negative`, and
defaults to neutral. -/
def emotionCategoriesPositive : List String := ["기쁨", "행복", "만족", "흥미", "기대", "사랑"]

def emotionCategoriesNegative : List String := ["슬픔", "분노", "불안", "공포", "우울", "절망", "실망"]

/-- Python's `\w` over the alphabets appearing in the lexicons and inputs:
ASCII word characters and Hangul syllables. -/
def isWordChar (c : Char) : Bool :=
  c.isAlphanum || c = '_' || (0xAC00 ≤ c.toNat && c.toNat ≤ 0xD7A3)

/-- Length of the regex match `kw\w*` when `kw` is a prefix of `cs`:
the keyword plus the maximal following word-character run (after which
the trailing `\b` holds automatically). -/
def matchEndAt (kw cs : List Char) : Option ℕ :=
  if decide (kw <+: cs) then
    some (kw.length + ((cs.drop kw.length).takeWhile isWordChar).length)
  else none

/-- `re.finditer` for `\b kw \w*\b` (analyzer.py line 115): left-to-right,
non-overlapping matches starting at word boundaries (`prevWord` is whether
the previous character is a word character).  After a match the scan
resumes past it; every lexicon keyword ends in a word character, so the
character before the resume point is one. -/
def findMatchesAux (kw : List Char) : ℕ → Bool → ℕ → List Char → List (ℕ × ℕ)
  | 0, _, _, _ => []
  | _ + 1, _, _, [] => []
  | fuel + 1, prevWord, pos, c :: rest =>
    match (if prevWord then none else matchEndAt kw (c :: rest)) with
    | some len =>
      (pos, pos + len) :: findMatchesAux kw fuel true (pos + len) (rest.drop (len - 1))
    | none => findMatchesAux kw fuel (isWordChar c) (pos + 1) rest

/-- All matches of `\b kw \w*\b` in `cs`.  Each scan step consumes at
least one character, so a fuel of `cs.length` never runs out. -/
def findMatches (kw cs : List Char) : List (ℕ × ℕ) :=
  if kw.isEmpty then [] else findMatchesAux kw cs.length false 0 cs

/-- The 20-character context window around a match
(`text[max(0, start-20) : min(len, end+20)]`, analyzer.py lines 122-124).
The positions refer to the lowered text, whose per-character lowering
keeps them aligned with the original. -/
def contextOf (cs : List Char) (s e : ℕ) : List Char :=
  (cs.take (e + 20)).drop (s - 20)

/-- `if mod in context` for any modifier in the list — the `break` in the
source makes the multiplier apply once iff some modifier occurs. -/
def hasMod (mods : List String) (ctx : List Char) : Bool :=
  mods.any fun m => decide (m.toList <:+: ctx)

/-- Score contributed by one keyword match (analyzer.py lines 117-144):
base 1.0, ×1.5 for an intensity-high modifier in context, ×0.7 for an
intensity-low modifier, ×(−0.5) for a negation word. -/
def matchScore (lex : EmotionLexicon) (ctx : List Char) : ℚ :=
  let s1 : ℚ := 1
  let s2 := if hasMod lex.intensityHigh ctx then s1 * (3/2) else s1
  let s3 := if hasMod lex.intensityLow ctx then s2 * (7/10) else s2
  if hasMod lex.negationWords ctx then s3 * (-(1/2)) else s3

/-- Accumulated raw score of one emotion: the sum of match scores over all
of its keywords' matches. -/
def rawScore (lex : EmotionLexicon) (cs : List Char) (kws : List String) : ℚ :=
  (kws.map fun kw =>
    ((findMatches kw.toList cs).map fun m => matchScore lex (contextOf cs m.1 m.2)).sum).sum

/-- `max(d, key=d.get)` together with the corresponding value: Python's
`max` keeps the first entry among ties.  The `("neutral", 0)` default is
unreachable: Python's `max` raises on an empty dict, and `analyze_text`
only takes the maximum when some score is positive, hence when the dict is
nonempty. -/
def maxEntryFirst : List (String × ℚ) → String × ℚ
  | [] => ("neutral", 0)
  | p :: ps => ps.foldl (fun best q => if best.2 < q.2 then q else best) p

/-- The keywords (across all emotions, in lexicon order) with at least one
match in the text (analyzer.py lines 176-180, where `re.search` tests for
a match anywhere). -/
def matchedKeywords (lex : EmotionLexicon) (cs : List Char) : List String :=
  (lex.emotions.map fun ek => ek.2.filter fun kw => ¬(findMatches kw.toList cs).isEmpty).flatten

/-- Result dict of `analyze_text`.  The short-input branch returns a
four-key dict without a `keywords` entry; the main branch always includes
one — hence an `Option` field. -/
structure EmotionResult where
  dominant_emotion : String
  emotion_category : String
  emotion_scores : List (String × ℚ)
  confidence : ℚ
  keywords : Option (List String)
deriving DecidableEq

/-- The `emotion_scores` accumulation of `analyze_text` (analyzer.py lines
108-144): one raw score per emotion of the lexicon (dict keys are
distinct). -/
def emotionScoresOf (lex : EmotionLexicon) (text : String) : List (String × ℚ) :=
  lex.emotions.map fun ek => (ek.1, rawScore lex (lowerStr text) ek.2)

/-- `total_score = sum(abs(score) ...)` (analyzer.py line 147). -/
def totalScoreOf (lex : EmotionLexicon) (text : String) : ℚ :=
  ((emotionScoresOf lex text).map fun p => |p.2|).sum

/-- `normalized_scores` (analyzer.py lines 149-157): absolute scores
divided by the total when it is positive, all zeros otherwise. -/
def normalizedScoresOf (lex : EmotionLexicon) (text : String) : List (String × ℚ) :=
  if 0 < totalScoreOf lex text then
    (emotionScoresOf lex text).map fun p => (p.1, |p.2| / totalScoreOf lex text)
  else (emotionScoresOf lex text).map fun p => (p.1, (0 : ℚ))

/-- `dominant_emotion` (analyzer.py lines 154, 158). -/
def dominantOf (lex : EmotionLexicon) (text : String) : String :=
  if 0 < totalScoreOf lex text then (maxEntryFirst (normalizedScoresOf lex text)).1
  else "neutral"

/-- `dominant_score` (analyzer.py lines 155, 159). -/
def dominantScoreOf (lex : EmotionLexicon) (text : String) : ℚ :=
  if 0 < totalScoreOf lex text then (maxEntryFirst (normalizedScoresOf lex text)).2
  else 0

/-- The coarse category of the dominant emotion (analyzer.py lines
162-167). -/
def categoryOf (lex : EmotionLexicon) (text : String) : String :=
  if dominantOf lex text ∈ emotionCategoriesPositive then "positive"
  else if dominantOf lex text ∈ emotionCategoriesNegative then "negative"
  else "neutral"

/-- `scores_list = sorted(values, reverse=True)` (analyzer.py line 170). -/
def scoresListOf (lex : EmotionLexicon) (text : String) : List ℚ :=
  List.insertionSort (fun a b : ℚ => b ≤ a) ((normalizedScoresOf lex text).map Prod.snd)

/-- `confidence` before clamping (analyzer.py lines 171-173): the relative
gap between the top two scores when a second positive score exists, else
the dominant score itself. -/
def confidenceOf (lex : EmotionLexicon) (text : String) : ℚ :=
  if 1 < (scoresListOf lex text).length ∧ 0 < (scoresListOf lex text).getD 1 0 then
    ((scoresListOf lex text).getD 0 0 - (scoresListOf lex text).getD 1 0) /
      (scoresListOf lex text).getD 0 0
  else dominantScoreOf lex text

/-- `analyze_text` (analyzer.py lines 90-188), assembled from the named
locals above.  `list(set(keywords))[:5]` is modelled as first-occurrence
de-duplication followed by `take 5`; the iteration order of a Python set
is unspecified, and no claim depends on the order of this list. -/
def analyze_text (lex : EmotionLexicon) (text : String) : EmotionResult :=
  if text.length < 3 then
    { dominant_emotion := "unknown", emotion_category := "unknown",
      emotion_scores := [], confidence := 0, keywords := none }
  else
    { dominant_emotion := dominantOf lex text,
      emotion_category := categoryOf lex text,
      emotion_scores := normalizedScoresOf lex text,
      confidence := min (confidenceOf lex text) 1,
      keywords := some ((dedupKeepFirst (matchedKeywords lex (lowerStr text))).take 5) }

/-! ### Helper lemmas on the phishing detector -/

theorem patternRiskLevel_medium {s : ℚ} (h : patternRiskLevel s = "medium") : 2/5 ≤ s := by
  unfold patternRiskLevel at h
  split_ifs at h <;> simp_all

theorem patternRiskLevel_high {s : ℚ} (h : patternRiskLevel s = "high") : 7/10 ≤ s := by
  unfold patternRiskLevel at h
  split_ifs at h <;> simp_all

theorem detect_with_patterns_level_unknown_or_fun (pats : PhishingPatterns) (text : String) :
    (detect_with_patterns pats text).risk_level = "unknown" ∨
      (detect_with_patterns pats text).risk_level =
        patternRiskLevel (detect_with_patterns pats text).score := by
  unfold detect_with_patterns
  split
  · exact Or.inl rfl
  · exact Or.inr rfl

theorem detect_with_patterns_score_nonneg (pats : PhishingPatterns) (text : String) :
    0 ≤ (detect_with_patterns pats text).score := by
  unfold detect_with_patterns
  split
  · exact le_refl 0
  · refine le_min ?_ ?_
    · positivity
    · norm_num

theorem detect_with_patterns_score_le_one (pats : PhishingPatterns) (text : String) :
    (detect_with_patterns pats text).score ≤ 1 := by
  unfold detect_with_patterns
  split
  · norm_num
  · exact min_le_right _ _

theorem digitsVal_cast_nonneg (ds : List Char) : (0 : ℚ) ≤ (digitsVal ds : ℚ) := by
  positivity

theorem parseProbFloat_nonneg {cs : List Char} {q : ℚ} (h : parseProbFloat cs = some q) :
    0 ≤ q := by
  unfold parseProbFloat at h
  split_ifs at h
  rcases hr : cs.drop (cs.takeWhile Char.isDigit).length with _ | ⟨c, fp⟩ <;>
    rw [hr] at h <;> dsimp only at h <;> split_ifs at h <;> cases h <;> positivity

theorem parse_llm_result_score_nonneg (r : String) : 0 ≤ (parse_llm_result r).score := by
  unfold parse_llm_result
  dsimp only
  split
  · exact le_refl 0
  · split
    · exact le_refl 0
    · exact parseProbFloat_nonneg ‹_›

theorem detect_with_llm_score_nonneg (pats : PhishingPatterns) (text : String)
    (llm : Except Unit String) : 0 ≤ (detect_with_llm pats text llm).score := by
  unfold detect_with_llm
  split
  · exact le_refl 0
  · match llm with
    | Except.error _ => exact detect_with_patterns_score_nonneg pats text
    | Except.ok r => exact parse_llm_result_score_nonneg r

/-! ### Claim theorems on the phishing detector -/

theorem detect_eq_pattern (pats : PhishingPatterns) (τ : ℚ) (text : String)
    (llm : Except Unit String) (h : (detect_with_patterns pats text).score < 1/5) :
    detect pats τ text llm =
      { is_phishing := false,
        risk_level := (detect_with_patterns pats text).risk_level,
        score := (detect_with_patterns pats text).score,
        keywords := (detect_with_patterns pats text).keywords,
        explanation := (detect_with_patterns pats text).explanation,
        method := "pattern" } := by
  simp only [detect]
  rw [if_pos h]

theorem detect_eq_combined (pats : PhishingPatterns) (τ : ℚ) (text : String)
    (llm : Except Unit String) (h : ¬(detect_with_patterns pats text).score < 1/5) :
    detect pats τ text llm =
      { is_phishing :=
          (combinedDecision τ
            (max (detect_with_patterns pats text).score (detect_with_llm pats text llm).score)).2,
        risk_level :=
          (combinedDecision τ
            (max (detect_with_patterns pats text).score (detect_with_llm pats text llm).score)).1,
        score := max (detect_with_patterns pats text).score (detect_with_llm pats text llm).score,
        keywords :=
          dedupKeepFirst
            ((detect_with_patterns pats text).keywords ++ (detect_with_llm pats text llm).keywords),
        explanation :=
          if (detect_with_llm pats text llm).explanation ≠ "" ∧
              (detect_with_llm pats text llm).explanation ≠ parseFailExplanation then
            (detect_with_llm pats text llm).explanation
          else (detect_with_patterns pats text).explanation,
        method := "combined" } := by
  simp only [detect]
  rw [if_neg h]

/-- Claim C5 (confirmed): for every input text and every secondary-classifier
behaviour (response or failure), the verdict returned by `detect` satisfies
`is_phishing = true` iff `risk_level` is `"medium"` or `"high"`. -/
theorem detect_is_phishing_iff_medium_or_high (pats : PhishingPatterns) (τ : ℚ)
    (text : String) (llm : Except Unit String) :
    (detect pats τ text llm).is_phishing = true ↔
      ((detect pats τ text llm).risk_level = "medium" ∨
       (detect pats τ text llm).risk_level = "high") := by
  by_cases h : (detect_with_patterns pats text).score < 1/5
  · rw [detect_eq_pattern pats τ text llm h]
    dsimp only
    constructor
    · intro hh; cases hh
    · intro hh
      rcases detect_with_patterns_level_unknown_or_fun pats text with hu | hf
      · rcases hh with hh | hh <;> rw [hu] at hh <;> simp at hh
      · rcases hh with hh | hh <;> rw [hf] at hh
        · exact absurd (patternRiskLevel_medium hh) (by push_neg; linarith)
        · exact absurd (patternRiskLevel_high hh) (by push_neg; linarith)
  · rw [detect_eq_combined pats τ text llm h]
    dsimp only
    unfold combinedDecision
    split_ifs <;> simp

/-- Claim C9 (confirmed): every string shorter than 5 characters (including
the empty string) makes `detect` return the fixed verdict
`{is_phishing := false, risk_level := "unknown", score := 0, keywords := [],
method := "pattern"}` (with the fixed too-short explanation), for every
secondary-classifier behaviour — the classifier is never consulted, since the
short-circuit happens in the pattern stage.  The spec documents only a
3-character floor for the emotion scorer, not this 5-character phishing
guard. -/
theorem detect_short_text_guard (pats : PhishingPatterns) (τ : ℚ) (text : String)
    (llm : Except Unit String) (h : text.length < 5) :
    detect pats τ text llm =
      { is_phishing := false, risk_level := "unknown", score := 0, keywords := [],
        explanation := "텍스트가 너무 짧습니다.", method := "pattern" } := by
  have hp : detect_with_patterns pats text =
      { risk_level := "unknown", score := 0, keywords := [],
        explanation := "텍스트가 너무 짧습니다." } := by
    unfold detect_with_patterns
    rw [if_pos h]
  rw [detect_eq_pattern pats τ text llm (by rw [hp]; norm_num), hp]

/-- Witness for C9 at a 2-character input and a nonempty classifier
response. -/
theorem detect_short_text_guard_witness :
    String.length "안녕" < 5 ∧
      detect defaultPhishingPatterns (7/10) "안녕" (Except.ok "확률: 0.9") =
        { is_phishing := false, risk_level := "unknown", score := 0, keywords := [],
          explanation := "텍스트가 너무 짧습니다.", method := "pattern" } :=
  ⟨by decide,
   detect_short_text_guard defaultPhishingPatterns (7/10) "안녕" (Except.ok "확률: 0.9")
     (by decide)⟩

/-- Claim C4 (corrected → amended): the verdict score is always ≥ 0, and it
is ≤ 1 whenever the probability parsed out of the secondary classifier's
response is ≤ 1 (in particular when parsing fails, when the classifier
errors, or when it is skipped).  The parsed probability itself is not
clamped, so a response reporting a probability above 1 escapes [0,1] — see
`detect_score_exceeds_one`. -/
theorem detect_score_bounds (pats : PhishingPatterns) (τ : ℚ) (text : String)
    (llm : Except Unit String) :
    0 ≤ (detect pats τ text llm).score ∧
      ((∀ r, llm = Except.ok r → (parse_llm_result r).score ≤ 1) →
        (detect pats τ text llm).score ≤ 1) := by
  by_cases h : (detect_with_patterns pats text).score < 1/5
  · rw [detect_eq_pattern pats τ text llm h]
    exact ⟨detect_with_patterns_score_nonneg pats text,
           fun _ => detect_with_patterns_score_le_one pats text⟩
  · rw [detect_eq_combined pats τ text llm h]
    dsimp only
    constructor
    · exact le_trans (detect_with_patterns_score_nonneg pats text) (le_max_left _ _)
    · intro hb
      refine max_le (detect_with_patterns_score_le_one pats text) ?_
      unfold detect_with_llm
      split
      · norm_num
      · cases llm with
        | error e => exact detect_with_patterns_score_le_one pats text
        | ok r => exact hb r rfl

/-- Counterexample for C4 as stated: with pattern score 0.5 (the high-risk
keyword `계좌번호`) and the free-text response `확률: 3.5`, the verdict's
score is 3.5 — outside [0,1]. -/
theorem detect_score_exceeds_one :
    1 < (detect defaultPhishingPatterns (7/10) "계좌번호 알려주세요"
          (Except.ok "확률: 3.5")).score := by
  with_unfolding_all decide

/-- Witness for the amended C4 at a response whose parsed probability is
0.5 ≤ 1. -/
theorem detect_score_bounds_witness :
    0 ≤ (detect defaultPhishingPatterns (7/10) "계좌번호 알려주세요"
          (Except.ok "확률: 0.5")).score ∧
      (detect defaultPhishingPatterns (7/10) "계좌번호 알려주세요"
          (Except.ok "확률: 0.5")).score ≤ 1 := by
  have h := detect_score_bounds defaultPhishingPatterns (7/10) "계좌번호 알려주세요"
    (Except.ok "확률: 0.5")
  refine ⟨h.1, h.2 ?_⟩
  intro r hr
  cases hr
  with_unfolding_all decide

/-- Rank of a risk level, for stating monotonicity. -/
def riskRank : String → ℕ
  | "safe" => 0
  | "low" => 1
  | "medium" => 2
  | "high" => 3
  | _ => 0

/-- The risk level `detect` derives from the pattern score `s` when the
secondary classifier contributes no higher score: the `< 0.2` skip gate
(detector.py line 303) selects between the pattern thresholds (lines
128-135) and the fused thresholds (lines 336-347). -/
def riskLevelOfScore (τ s : ℚ) : String :=
  if s < 1/5 then patternRiskLevel s else (combinedDecision τ s).1

/-- `detect` indeed realizes `riskLevelOfScore` on its pattern score when the
text passes the length guards and the classifier's score does not exceed
the pattern score. -/
theorem detect_risk_level_fun_of_score (pats : PhishingPatterns) (τ : ℚ)
    (text : String) (llm : Except Unit String) (hlen : 5 ≤ text.length)
    (hllm : (detect_with_llm pats text llm).score ≤ (detect_with_patterns pats text).score) :
    (detect pats τ text llm).risk_level =
      riskLevelOfScore τ (detect_with_patterns pats text).score := by
  by_cases h : (detect_with_patterns pats text).score < 1/5
  · rw [detect_eq_pattern pats τ text llm h]
    dsimp only
    unfold riskLevelOfScore
    rw [if_pos h]
    unfold detect_with_patterns
    rw [if_neg (by omega)]
  · rw [detect_eq_combined pats τ text llm h]
    dsimp only
    unfold riskLevelOfScore
    rw [if_neg h, max_eq_left hllm]

/-- Claim C3 (corrected → amended): with the default τ = 0.7, the derived
risk level is a non-decreasing step function of the score separately on
[0, 0.2) and on [0.2, 1], with the documented boundaries (>0 low below the
gate; 0.3τ = 0.21, 0.7τ = 0.49 and τ = 0.7 above it) — but it is NOT
globally non-decreasing: scores in [0.2, 0.3τ) map to "safe" although
(0, 0.2) maps to "low", a downward step exactly at 0.2. -/
theorem patternRank_mono {s1 s2 : ℚ} (h : s1 ≤ s2) :
    riskRank (patternRiskLevel s1) ≤ riskRank (patternRiskLevel s2) := by
  unfold patternRiskLevel
  split_ifs <;> first | decide | linarith

theorem combinedRank_mono {τ s1 s2 : ℚ} (h : s1 ≤ s2) :
    riskRank (combinedDecision τ s1).1 ≤ riskRank (combinedDecision τ s2).1 := by
  unfold combinedDecision
  split_ifs <;> first | decide | nlinarith

theorem riskLevelOfScore_piecewise :
    (∀ s1 s2 : ℚ, s1 ≤ s2 → s2 < 1/5 →
      riskRank (riskLevelOfScore (7/10) s1) ≤ riskRank (riskLevelOfScore (7/10) s2)) ∧
    (∀ s1 s2 : ℚ, s1 ≤ s2 → 1/5 ≤ s1 →
      riskRank (riskLevelOfScore (7/10) s1) ≤ riskRank (riskLevelOfScore (7/10) s2)) ∧
    (∀ s : ℚ, s ≤ 0 → riskLevelOfScore (7/10) s = "safe") ∧
    (∀ s : ℚ, 0 < s → s < 1/5 → riskLevelOfScore (7/10) s = "low") ∧
    (∀ s : ℚ, 1/5 ≤ s → s < 21/100 → riskLevelOfScore (7/10) s = "safe") ∧
    (∀ s : ℚ, 21/100 ≤ s → s < 49/100 → riskLevelOfScore (7/10) s = "low") ∧
    (∀ s : ℚ, 49/100 ≤ s → s < 7/10 → riskLevelOfScore (7/10) s = "medium") ∧
    (∀ s : ℚ, 7/10 ≤ s → riskLevelOfScore (7/10) s = "high") := by
  refine ⟨?_, ?_, ?_, ?_, ?_, ?_, ?_, ?_⟩
  · intro s1 s2 h12 h2
    unfold riskLevelOfScore
    rw [if_pos (lt_of_le_of_lt h12 h2), if_pos h2]
    exact patternRank_mono h12
  · intro s1 s2 h12 h1
    unfold riskLevelOfScore
    rw [if_neg (not_lt.mpr h1), if_neg (not_lt.mpr (le_trans h1 h12))]
    exact combinedRank_mono h12
  · intro s h
    unfold riskLevelOfScore patternRiskLevel
    rw [if_pos (by linarith), if_neg (by linarith), if_neg (by linarith), if_neg (by linarith)]
  · intro s h0 h
    unfold riskLevelOfScore patternRiskLevel
    rw [if_pos h, if_neg (by linarith), if_neg (by linarith), if_pos h0]
  · intro s h1 h2
    unfold riskLevelOfScore combinedDecision
    rw [if_neg (not_lt.mpr h1), if_neg (by nlinarith), if_neg (by nlinarith),
      if_neg (by nlinarith)]
  · intro s h1 h2
    unfold riskLevelOfScore combinedDecision
    rw [if_neg (by intro hc; nlinarith), if_neg (by nlinarith), if_neg (by nlinarith),
      if_pos (by nlinarith)]
  · intro s h1 h2
    unfold riskLevelOfScore combinedDecision
    rw [if_neg (by intro hc; nlinarith), if_neg (by nlinarith), if_pos (by nlinarith)]
  · intro s h1
    unfold riskLevelOfScore combinedDecision
    rw [if_neg (by intro hc; nlinarith), if_pos (by nlinarith)]

/-- Counterexample for C3 as stated: the pattern scores 0.1 (`급한`) and 0.2
(`급한`, `긴급`) are realized by concrete texts; `detect` maps the smaller
score to "low" and the larger to "safe" — a downward step, so the function
is not non-decreasing on [0,1]. -/
theorem detect_risk_level_downward_step :
    (detect_with_patterns defaultPhishingPatterns "급한 일이에요").score = 1/10 ∧
    (detect_with_patterns defaultPhishingPatterns "급한 긴급 상황").score = 1/5 ∧
    (detect defaultPhishingPatterns (7/10) "급한 일이에요" (Except.ok "")).risk_level = "low" ∧
    (detect defaultPhishingPatterns (7/10) "급한 긴급 상황" (Except.ok "")).risk_level = "safe" ∧
    riskRank (riskLevelOfScore (7/10) (1/5)) < riskRank (riskLevelOfScore (7/10) (1/10)) := by
  refine ⟨?_, ?_, ?_, ?_, ?_⟩ <;> with_unfolding_all decide

/-- Witness for the amended C3 at concrete scores in each regime. -/
theorem riskLevelOfScore_piecewise_witness :
    riskRank (riskLevelOfScore (7/10) (1/10)) ≤ riskRank (riskLevelOfScore (7/10) (3/20)) ∧
    riskRank (riskLevelOfScore (7/10) (3/10)) ≤ riskRank (riskLevelOfScore (7/10) (1/2)) ∧
    riskLevelOfScore (7/10) 0 = "safe" ∧
    riskLevelOfScore (7/10) (1/10) = "low" ∧
    riskLevelOfScore (7/10) (1/5) = "safe" ∧
    riskLevelOfScore (7/10) (3/10) = "low" ∧
    riskLevelOfScore (7/10) (1/2) = "medium" ∧
    riskLevelOfScore (7/10) (7/10) = "high" :=
  ⟨riskLevelOfScore_piecewise.1 _ _ (by norm_num) (by norm_num),
   riskLevelOfScore_piecewise.2.1 _ _ (by norm_num) (by norm_num),
   riskLevelOfScore_piecewise.2.2.1 _ (by norm_num),
   riskLevelOfScore_piecewise.2.2.2.1 _ (by norm_num) (by norm_num),
   riskLevelOfScore_piecewise.2.2.2.2.1 _ (by norm_num) (by norm_num),
   riskLevelOfScore_piecewise.2.2.2.2.2.1 _ (by norm_num) (by norm_num),
   riskLevelOfScore_piecewise.2.2.2.2.2.2.1 _ (by norm_num) (by norm_num),
   riskLevelOfScore_piecewise.2.2.2.2.2.2.2 _ (by norm_num)⟩

/-- Claim C6 (corrected → amended): when the secondary classifier raises
while the pattern score has passed the 0.2 gate (and the text passed the
10-character LLM-side guard), `detect` does not propagate the failure; the
returned verdict keeps the pattern score, keywords (self-union,
first-occurrence de-duplicated) and explanation, but its `risk_level` and
`is_phishing` are re-derived through the combined τ-thresholds and its
`method` is "combined" — it is NOT the pattern-only verdict, whose
`risk_level` can differ (see `detect_llm_error_not_pattern_verdict`). -/
theorem detect_llm_error_fallback (pats : PhishingPatterns) (τ : ℚ) (text : String)
    (h1 : 1/5 ≤ (detect_with_patterns pats text).score) (h2 : 10 ≤ text.length) :
    detect pats τ text (Except.error ()) =
      { is_phishing := (combinedDecision τ (detect_with_patterns pats text).score).2,
        risk_level := (combinedDecision τ (detect_with_patterns pats text).score).1,
        score := (detect_with_patterns pats text).score,
        keywords := dedupKeepFirst
          ((detect_with_patterns pats text).keywords ++ (detect_with_patterns pats text).keywords),
        explanation := (detect_with_patterns pats text).explanation,
        method := "combined" } := by
  have hllm : detect_with_llm pats text (Except.error ()) = detect_with_patterns pats text := by
    unfold detect_with_llm
    rw [if_neg (by omega)]
  rw [detect_eq_combined pats τ text (Except.error ()) (not_lt.mpr h1), hllm, max_self,
    ite_self]

/-- Counterexample for C6 as stated: on `송금을 빨리 해주세요` (pattern score
0.4, pattern risk level "medium") a classifier error yields a verdict with
risk level "low" and method "combined" — not the pattern-only verdict. -/
theorem detect_llm_error_not_pattern_verdict :
    (detect defaultPhishingPatterns (7/10) "송금을 빨리 해주세요"
        (Except.error ())).risk_level = "low" ∧
    (detect_with_patterns defaultPhishingPatterns "송금을 빨리 해주세요").risk_level = "medium" ∧
    (detect defaultPhishingPatterns (7/10) "송금을 빨리 해주세요"
        (Except.error ())).method = "combined" := by
  refine ⟨?_, ?_, ?_⟩ <;> with_unfolding_all decide

/-- Witness for the amended C6 at the same text. -/
theorem detect_llm_error_fallback_witness :
    detect defaultPhishingPatterns (7/10) "송금을 빨리 해주세요" (Except.error ()) =
      { is_phishing := (combinedDecision (7/10)
          (detect_with_patterns defaultPhishingPatterns "송금을 빨리 해주세요").score).2,
        risk_level := (combinedDecision (7/10)
          (detect_with_patterns defaultPhishingPatterns "송금을 빨리 해주세요").score).1,
        score := (detect_with_patterns defaultPhishingPatterns "송금을 빨리 해주세요").score,
        keywords := dedupKeepFirst
          ((detect_with_patterns defaultPhishingPatterns "송금을 빨리 해주세요").keywords ++
            (detect_with_patterns defaultPhishingPatterns "송금을 빨리 해주세요").keywords),
        explanation := (detect_with_patterns defaultPhishingPatterns "송금을 빨리 해주세요").explanation,
        method := "combined" } :=
  detect_llm_error_fallback defaultPhishingPatterns (7/10) "송금을 빨리 해주세요"
    (by with_unfolding_all decide) (by decide)

/-! ### Claim theorems on the emotion analyzer -/

theorem analyze_text_eq_short (lex : EmotionLexicon) (text : String)
    (h : text.length < 3) :
    analyze_text lex text =
      { dominant_emotion := "unknown", emotion_category := "unknown",
        emotion_scores := [], confidence := 0, keywords := none } := by
  unfold analyze_text
  rw [if_pos h]

theorem analyze_text_eq_main (lex : EmotionLexicon) (text : String)
    (h : ¬text.length < 3) :
    analyze_text lex text =
      { dominant_emotion := dominantOf lex text,
        emotion_category := categoryOf lex text,
        emotion_scores := normalizedScoresOf lex text,
        confidence := min (confidenceOf lex text) 1,
        keywords := some ((dedupKeepFirst (matchedKeywords lex (lowerStr text))).take 5) } := by
  unfold analyze_text
  rw [if_neg h]

theorem sum_map_div (l : List ℚ) (c : ℚ) :
    (l.map fun x => x / c).sum = l.sum / c := by
  induction l with
  | nil => simp
  | cons x xs ih => simp [ih, add_div]

theorem normalized_sum_eq_one (lex : EmotionLexicon) (text : String)
    (ht : 0 < totalScoreOf lex text) :
    ((normalizedScoresOf lex text).map Prod.snd).sum = 1 := by
  unfold normalizedScoresOf
  rw [if_pos ht, List.map_map]
  have h1 : (Prod.snd ∘ fun p : String × ℚ => (p.1, |p.2| / totalScoreOf lex text)) =
      fun p : String × ℚ => |p.2| / totalScoreOf lex text := rfl
  have h2 : ((emotionScoresOf lex text).map fun p => |p.2| / totalScoreOf lex text) =
      ((emotionScoresOf lex text).map fun p => |p.2|).map
        (fun x => x / totalScoreOf lex text) := by
    rw [List.map_map]
    rfl
  rw [h1, h2, sum_map_div]
  exact div_self (ne_of_gt ht)

theorem normalized_all_zero (lex : EmotionLexicon) (text : String)
    (ht : ¬0 < totalScoreOf lex text) :
    ∀ p ∈ normalizedScoresOf lex text, p.2 = 0 := by
  unfold normalizedScoresOf
  rw [if_neg ht]
  intro p hp
  rcases List.mem_map.mp hp with ⟨q, _, rfl⟩
  rfl

theorem all_zero_getD (l : List ℚ) (h : ∀ x ∈ l, x = 0) : ∀ i, l.getD i 0 = 0 := by
  induction l with
  | nil => intro i; cases i <;> rfl
  | cons x xs ih =>
    intro i
    cases i with
    | zero => exact h x (List.mem_cons_self x xs)
    | succ n => exact ih (fun y hy => h y (List.mem_cons_of_mem x hy)) n

theorem scoresList_all_zero (lex : EmotionLexicon) (text : String)
    (ht : ¬0 < totalScoreOf lex text) :
    ∀ x ∈ scoresListOf lex text, x = 0 := by
  intro x hx
  unfold scoresListOf at hx
  have hx' : x ∈ (normalizedScoresOf lex text).map Prod.snd :=
    (List.perm_insertionSort _ _).mem_iff.mp hx
  rcases List.mem_map.mp hx' with ⟨p, hp, rfl⟩
  exact normalized_all_zero lex text ht p hp

theorem confidence_zero (lex : EmotionLexicon) (text : String)
    (ht : ¬0 < totalScoreOf lex text) : confidenceOf lex text = 0 := by
  unfold confidenceOf
  rw [if_neg, dominantScoreOf, if_neg ht]
  rintro ⟨-, h0⟩
  rw [all_zero_getD _ (scoresList_all_zero lex text ht) 1] at h0
  exact lt_irrefl 0 h0

theorem category_neutral_of_zero (lex : EmotionLexicon) (text : String)
    (ht : ¬0 < totalScoreOf lex text) : categoryOf lex text = "neutral" := by
  unfold categoryOf dominantOf
  rw [if_neg ht, if_neg (by decide), if_neg (by decide)]

/-- Claim C7 (confirmed): for every lexicon and every text, the
`emotion_scores` mapping of `analyze_text` either sums to 1 within 1e-6
(in the exact-rational model it sums to exactly 1), or contains no nonzero
entry — all zeros in the no-signal branch, empty under the short-input
guard — together with confidence 0 and a "neutral"/"unknown" category. -/
theorem analyze_text_scores_normalized (lex : EmotionLexicon) (text : String) :
    |((analyze_text lex text).emotion_scores.map Prod.snd).sum - 1| ≤ 1/1000000 ∨
      ((∀ p ∈ (analyze_text lex text).emotion_scores, p.2 = 0) ∧
        (analyze_text lex text).confidence = 0 ∧
        ((analyze_text lex text).emotion_category = "neutral" ∨
         (analyze_text lex text).emotion_category = "unknown")) := by
  by_cases hg : text.length < 3
  · right
    rw [analyze_text_eq_short lex text hg]
    refine ⟨?_, rfl, Or.inr rfl⟩
    intro p hp
    simp at hp
  · rw [analyze_text_eq_main lex text hg]
    dsimp only
    by_cases ht : 0 < totalScoreOf lex text
    · left
      rw [normalized_sum_eq_one lex text ht]
      norm_num
    · right
      refine ⟨normalized_all_zero lex text ht, ?_, Or.inl (category_neutral_of_zero lex text ht)⟩
      rw [confidence_zero lex text ht]
      simp

/-- Claim C10 (confirmed): an input shorter than 3 characters produces the
four-field record with no `keywords` entry at all, while every longer
input produces a record whose `keywords` entry is a list of at most 5
distinct keywords, each of which actually matched in the text — the result
shape is not uniform across the two branches. -/
theorem analyze_text_keywords_shape (lex : EmotionLexicon) (text : String) :
    (text.length < 3 →
      analyze_text lex text =
        { dominant_emotion := "unknown", emotion_category := "unknown",
          emotion_scores := [], confidence := 0, keywords := none }) ∧
    (3 ≤ text.length →
      ∃ l, (analyze_text lex text).keywords = some l ∧ l.length ≤ 5 ∧ l.Nodup ∧
        ∀ k ∈ l, k ∈ matchedKeywords lex (lowerStr text)) := by
  constructor
  · exact analyze_text_eq_short lex text
  · intro h
    have hg : ¬text.length < 3 := by omega
    refine ⟨(dedupKeepFirst (matchedKeywords lex (lowerStr text))).take 5, ?_, ?_, ?_, ?_⟩
    · rw [analyze_text_eq_main lex text hg]
    · exact le_trans (List.length_take_le _ _) (le_refl 5)
    · exact (dedupKeepFirst_nodup _).sublist (List.take_sublist _ _)
    · intro k hk
      exact dedupKeepFirst_subset _ k (List.take_subset _ _ hk)

/-- Witness for C10: the 1-character input `아` hits the short branch (no
keywords field), the 4-character input `행복해요` the main branch. -/
theorem analyze_text_keywords_shape_witness :
    analyze_text defaultEmotionLexicon "아" =
      { dominant_emotion := "unknown", emotion_category := "unknown",
        emotion_scores := [], confidence := 0, keywords := none } ∧
    (∃ l, (analyze_text defaultEmotionLexicon "행복해요").keywords = some l ∧
      l.length ≤ 5 ∧ l.Nodup ∧
      ∀ k ∈ l, k ∈ matchedKeywords defaultEmotionLexicon (lowerStr "행복해요")) :=
  ⟨(analyze_text_keywords_shape defaultEmotionLexicon "아").1 (by decide),
   (analyze_text_keywords_shape defaultEmotionLexicon "행복해요").2 (by decide)⟩

/-! ### Claim theorems on the trend monitor -/

theorem daily_keys (logs : List EmoLog) :
    (calculate_daily_emotions logs).map Prod.fst = countedDates logs := by
  unfold calculate_daily_emotions
  rw [List.map_map]
  have h : (Prod.fst ∘ fun d => (d, dayStatsOf logs d)) = id := rfl
  rw [h, List.map_id]

theorem recentDates_length (logs : List EmoLog) (days : ℕ) :
    (recentDates logs days).length =
      (countedDates logs).length - ((countedDates logs).length - days) := by
  simp only [recentDates, daily_keys]
  rw [List.length_drop, List.length_insertionSort]

/-- Claim C1 (corrected → amended): `detect_depression_risk(7, 0.6)` is
false whenever the window holds fewer than 7 distinct dated buckets (a
bucket being a date with a positive `total` counter — dates whose records
were all skipped by the category `KeyError` do not count); with exactly 7
buckets it is true iff at least 5 days have negative_ratio ≥ 0.6 (the
code's cutoff `7 * 0.7 = 4.9` admits 5 qualifying days) — so all 7
qualifying gives true, 5 of 7 qualifying also gives true, and at most 4 of
7 gives false. -/
theorem detect_depression_risk_seven_day_char (logs : List EmoLog) :
    ((countedDates logs).length < 7 → detect_depression_risk logs 7 (3/5) = false) ∧
    ((countedDates logs).length = 7 →
      (detect_depression_risk logs 7 (3/5) = true ↔ 5 ≤ highNegativeDays logs 7 (3/5))) := by
  have hlen := recentDates_length logs 7
  constructor
  · intro h
    unfold detect_depression_risk
    rw [if_pos (by omega)]
  · intro h
    unfold detect_depression_risk
    rw [if_neg (by omega), decide_eq_true_eq]
    have hq : ((7 : ℕ) : ℚ) * (7/10) = 49/10 := by norm_num
    constructor
    · intro hc
      by_contra hlt
      push_neg at hlt
      have h4 : highNegativeDays logs 7 (3/5) ≤ 4 := by omega
      have h4q : (highNegativeDays logs 7 (3/5) : ℚ) ≤ 4 := by exact_mod_cast h4
      rw [hq] at hc
      linarith
    · intro h5
      have h5q : (5 : ℚ) ≤ (highNegativeDays logs 7 (3/5) : ℚ) := by exact_mod_cast h5
      rw [hq]
      linarith

/-- Seven records on seven consecutive dates: five days with a single
negative record (negative_ratio 1 ≥ 0.6) and two days with a single
positive record (negative_ratio 0). -/
def sevenDayLogs : List EmoLog :=
  [⟨"2025-01-01T10:00:00", "negative", ["눈물"]⟩,
   ⟨"2025-01-02T11:00:00", "negative", []⟩,
   ⟨"2025-01-03T09:30:00", "negative", []⟩,
   ⟨"2025-01-04T20:00:00", "negative", []⟩,
   ⟨"2025-01-05T08:15:00", "negative", []⟩,
   ⟨"2025-01-06T10:00:00", "positive", []⟩,
   ⟨"2025-01-07T12:00:00", "positive", []⟩]

/-- Only four dated buckets. -/
def fourDayLogs : List EmoLog :=
  [⟨"2025-01-01T10:00:00", "negative", []⟩,
   ⟨"2025-01-02T11:00:00", "negative", []⟩,
   ⟨"2025-01-03T09:30:00", "negative", []⟩,
   ⟨"2025-01-04T20:00:00", "negative", []⟩]

/-- Counterexample for C1 as stated: with 7 distinct dated buckets of which
exactly 5 qualify, the predicate returns true, not false (5 ≥ 4.9). -/
theorem detect_depression_risk_five_of_seven :
    (countedDates sevenDayLogs).length = 7 ∧
    highNegativeDays sevenDayLogs 7 (3/5) = 5 ∧
    detect_depression_risk sevenDayLogs 7 (3/5) = true := by
  refine ⟨by decide, ?_, ?_⟩ <;> with_unfolding_all decide

/-- Witness for the amended C1: the insufficient-history branch at a 4-day
record set, and the 7-bucket equivalence at the 5-of-7 record set. -/
theorem detect_depression_risk_seven_day_char_witness :
    detect_depression_risk fourDayLogs 7 (3/5) = false ∧
    (countedDates sevenDayLogs).length = 7 ∧
    (detect_depression_risk sevenDayLogs 7 (3/5) = true ↔
      5 ≤ highNegativeDays sevenDayLogs 7 (3/5)) :=
  ⟨(detect_depression_risk_seven_day_char fourDayLogs).1 (by decide),
   by decide,
   (detect_depression_risk_seven_day_char sevenDayLogs).2 (by decide)⟩

/-- Six all-negative dates plus a seventh date holding only an `"unknown"`
record (the category the engine persists for short inputs).  The skipped
record leaves its date's `total` at zero, so only six buckets are counted
and the predicate stays false — and a day with one negative record and one
`"unknown"` record keeps negative_ratio 1. -/
def sixPlusUnknownLogs : List EmoLog :=
  [⟨"2025-01-01T10:00:00", "negative", []⟩,
   ⟨"2025-01-01T11:00:00", "unknown", []⟩,
   ⟨"2025-01-02T11:00:00", "negative", []⟩,
   ⟨"2025-01-03T09:30:00", "negative", []⟩,
   ⟨"2025-01-04T20:00:00", "negative", []⟩,
   ⟨"2025-01-05T08:15:00", "negative", []⟩,
   ⟨"2025-01-06T10:00:00", "negative", []⟩,
   ⟨"2025-01-07T12:00:00", "unknown", []⟩]

theorem unknown_records_skipped :
    (datesOf sixPlusUnknownLogs).length = 7 ∧
    (countedDates sixPlusUnknownLogs).length = 6 ∧
    (dayStatsOf sixPlusUnknownLogs "2025-01-01").negRate = 1 ∧
    detect_depression_risk sixPlusUnknownLogs 7 (3/5) = false := by
  refine ⟨by decide, by decide, ?_, ?_⟩ <;> with_unfolding_all decide

/-- Claim C2 (code_bug): `generate_weekly_report` never returns a report.
For every record set the `dominant_emotion` entry of `overall_stats`
evaluates `max(["positive","negative","neutral"],
key=lambda x: locals()[f"x_ratio"])` (trend_monitor.py lines 178-179), and
the lambda's `locals()` binds only `x`, so the first key evaluation raises
`KeyError: 'positive_ratio'` — re-running it can therefore never produce
two reports to compare. -/
theorem generate_weekly_report_always_raises (logs : List EmoLog)
    (periodStart periodEnd generatedAt : String) :
    generate_weekly_report logs periodStart periodEnd generatedAt =
      Except.error "KeyError: positive_ratio" := rfl

/-! ### Claim theorems on the alert manager -/

/-- Claim C8 (confirmed): whenever the most recent persisted depression
alert found by the 7-day scan (`_get_last_alert`) is less than 3 days old,
`check_depression_alert` creates nothing and leaves the persisted alerts
unchanged — regardless of the emotion records and hence of any in-memory
creation order; the cooldown is evaluated against the persisted
timestamp. -/
theorem check_depression_alert_cooldown (emoLogs : List EmoLog) (alerts : List Alert)
    (now : ℕ) (a : Alert)
    (h1 : get_last_alert alerts now "depression" = some a)
    (h2 : (now - a.timestamp) / 86400 < 3) :
    check_depression_alert emoLogs alerts now = (none, alerts) := by
  unfold check_depression_alert
  split_ifs with hr
  · rw [h1]
    dsimp only
    rw [if_pos h2]
  · rfl

/-- A single depression alert persisted one day (86400 s) before `now`. -/
def oneDayOldAlerts : List Alert :=
  [⟨"depression", 1000000, "warning", depressionAlertMessage⟩]

/-- Witness for C8: with the persisted alert 86400 s old (1 day < 3 days),
no alert is created and the store is unchanged, even though the emotion
records are empty (no risk) or would qualify. -/
theorem check_depression_alert_cooldown_witness :
    get_last_alert oneDayOldAlerts 1086400 "depression" =
      some ⟨"depression", 1000000, "warning", depressionAlertMessage⟩ ∧
    (1086400 - 1000000) / 86400 < 3 ∧
    check_depression_alert sevenDayLogs oneDayOldAlerts 1086400 = (none, oneDayOldAlerts) :=
  ⟨by decide, by decide,
   check_depression_alert_cooldown sevenDayLogs oneDayOldAlerts 1086400
     ⟨"depression", 1000000, "warning", depressionAlertMessage⟩ (by decide) (by decide)⟩

end Bokdori

